import Mathlib

/-!
Verification of the pattern-scanning core of the smart-contract auditor
ML service (ml-service/app.py).

Modelling conventions, chosen so that every definition is executable and
kernel-evaluable on concrete inputs:

* Python strings are sequences of code points, modelled as `List Char`
  (abbreviated `Str`).  Python slicing `s[:k]`, `s[k:]`, `s[-n:]` and
  `s[:n]` become `List.take`, `List.drop`, `last_chars` and `List.take`.
* Python floats are modelled as rationals.  `round(x, 2)` is modelled by
  `round2` (round half up at two decimals; every value the scanner rounds
  is an exact multiple of 1/100 or 1/200, where the two tie conventions
  agree on the values that actually occur).
* The regular-expression engine (the Python `re` library) is external to
  the repository.  A compiled pattern is therefore abstracted by its
  observable behaviour: the primary pattern of a rule is a function
  returning the list of (start, end) spans that `re.finditer` would
  produce, and the `exclude` / `check_before` / `check_after` / `context`
  patterns are Boolean search functions abstracting `re.search` (the
  case-insensitive flag lives inside these functions).  `litFinditer` and
  `litSearch` below implement the literal-substring special case, which
  coincides with the regex semantics for the fixture patterns used in
  concrete witnesses.
* The Flask/HTTP layer, logging and timing are boundary collaborators and
  are not part of the modelled core; `analyze_contract` and
  `batch_analyze` model the computational body of the two endpoints
  (the request mapping `contract_data.get` with its empty-string default
  is modelled by passing the extracted contractCode directly).
-/

attribute [local semireducible] Rat.add Rat.mul Rat.inv Rat.sub Rat.ofScientific

/-- Python text modelled as a list of code points. -/
abbrev Str := List Char

/-- Shorthand turning a Lean string literal into the `Str` model. -/
def str (s : String) : Str := s.toList

/-- Python `s[-n:]` (the last `n` characters, the whole string when it is
shorter), for the positive `n` the scanner uses. -/
def last_chars (n : Nat) (s : Str) : Str := s.drop (s.length - n)

/-- Round half up at two decimals; models Python `round(x, 2)` on the exact
rational values the scanner produces.  `Int.fdiv` is floor division, so
`ratFloor` below is the mathematical floor of a rational. -/
def ratFloor (q : ℚ) : ℤ := q.num.fdiv (q.den : ℤ)

/-- Python `round(x, 2)` on the rational model. -/
def round2 (q : ℚ) : ℚ := Rat.divInt (ratFloor (q * 100 + 1/2)) 100

/-- One rule of VULNERABILITY_PATTERNS (app.py lines 65-300).  The regex
fields are abstracted by their match behaviour, see the header comment.
`context` is carried for fidelity although `analyze_contract_patterns`
never reads it. -/
structure RuleInfo where
  key : Str
  pattern : Str → List (Nat × Nat)
  exclude : Option (Str → Bool) := none
  check_before : Option (Str → Bool) := none
  check_after : Option (Str → Bool) := none
  context : Option (Str → Bool) := none
  name : Str
  description : Str
  severity : Str
  category : Str
  cwe_id : Option Str := none
  swc_id : Option Str := none
  recommendation : Str

/-- The Vulnerability dataclass (app.py lines 30-42). -/
structure Vulnerability where
  id : Str
  name : Str
  description : Str
  severity : Str
  category : Str
  line_number : Nat
  code_snippet : Str
  recommendation : Str
  confidence : ℚ
  cwe_id : Option Str := none
  swc_id : Option Str := none
deriving DecidableEq

/-- calculate_confidence (app.py lines 306-316): 0.7 for a pattern match,
plus 0.2 when context is satisfied, plus quality x 0.1, capped at 1.0. -/
def calculate_confidence (pattern_match : Bool) (context_match : Bool := true)
    (code_quality_score : ℚ := 1/2) : ℚ :=
  let base_confidence : ℚ := if pattern_match then 7/10 else 0
  let base_confidence := if context_match then base_confidence + 2/10 else base_confidence
  let base_confidence := base_confidence + code_quality_score * (1/10)
  min base_confidence 1

/-- Python `source.split(chr(10))`: splitting an empty text yields one empty
line, and a trailing newline yields a trailing empty line. -/
def splitLines : Str → List Str
  | [] => [[]]
  | c :: rest =>
    if c = '\n' then [] :: splitLines rest
    else
      match splitLines rest with
      | h :: t => (c :: h) :: t
      | [] => [[c]]

/-- Python `(chr(10)).join(lines)`. -/
def joinLines (lines : List Str) : Str := List.intercalate ['\n'] lines

/-- One rendered snippet line (app.py lines 326-328): the marker, the 1-based
line number, a colon and the line text. -/
def render_line (line_number : Nat) (i : Nat) (line : Str) : Str :=
  (if i = line_number then str ">>> " else str "    ")
    ++ Nat.toDigits 10 i ++ str ": " ++ line

/-- The numbered rendering of the selected lines, enumerating from `i`
(Python `enumerate(lines[start:end], start = start + 1)`). -/
def number_lines (line_number : Nat) : Nat → List Str → List Str
  | _, [] => []
  | i, l :: rest => render_line line_number i l :: number_lines line_number (i + 1) rest

/-- The slice `lines[start:end]` of extract_code_snippet (app.py lines
322-324), with `start = max(0, line_number - context_lines - 1)` (saturating
Nat subtraction) and `end = min(len(lines), line_number + context_lines)`. -/
def snippet_window (lines : List Str) (line_number context_lines : Nat) : List Str :=
  let start := line_number - context_lines - 1
  let stop := min lines.length (line_number + context_lines)
  (lines.drop start).take (stop - start)

/-- extract_code_snippet (app.py lines 319-330).  `line_number` is a natural
number: every call site passes `get_line_number`, which is at least 1. -/
def extract_code_snippet (source_code : Str) (line_number : Nat)
    (context_lines : Nat := 2) : Str :=
  let lines := splitLines source_code
  let start := line_number - context_lines - 1
  joinLines (number_lines line_number (start + 1)
    (snippet_window lines line_number context_lines))

/-- get_line_number (app.py lines 333-335): newlines strictly before the
match position, plus one. -/
def get_line_number (source_code : Str) (match_position : Nat) : Nat :=
  (source_code.take match_position).count '\n' + 1

/-- The exclusion test of app.py lines 349-352: `re.search` of the exclude
pattern over the whole source, when the rule defines one. -/
def rule_excluded (info : RuleInfo) (source_code : Str) : Bool :=
  match info.exclude with
  | some ex => ex source_code
  | none => false

/-- The context-aware analysis of app.py lines 357-369: `context_match`
starts true; a check_before hit in the last 500 characters before the match
start, or a check_after hit in the first 500 characters after the match end,
sets it false. -/
def context_ok (info : RuleInfo) (source_code : Str) (mstart mend : Nat) : Bool :=
  let context_match := true
  let context_match :=
    match info.check_before with
    | some cb => if cb (last_chars 500 (source_code.take mstart)) then false else context_match
    | none => context_match
  let context_match :=
    match info.check_after with
    | some ca => if ca ((source_code.drop mend).take 500) then false else context_match
    | none => context_match
  context_match

/-- The body of the per-match loop of analyze_contract_patterns (app.py
lines 347-397): `none` models `continue`, `some v` models appending the
built Vulnerability. -/
def match_step (info : RuleInfo) (source_code contract_name : Str)
    (m : Nat × Nat) (vuln_id : Nat) : Option Vulnerability :=
  if rule_excluded info source_code then none
  else
    let line_number := get_line_number source_code m.1
    let code_snippet := extract_code_snippet source_code line_number
    let context_match := context_ok info source_code m.1 m.2
    if context_match = false ∧ info.severity ≠ str "CRITICAL" ∧ info.severity ≠ str "HIGH" then
      none
    else
      let confidence := calculate_confidence true context_match
      let sc :=
        if context_match = false ∧ (info.severity = str "CRITICAL" ∨ info.severity = str "HIGH") then
          (str "MEDIUM", confidence * (8/10))
        else (info.severity, confidence)
      some {
        id := contract_name ++ str "-" ++ info.key ++ str "-" ++ Nat.toDigits 10 vuln_id,
        name := info.name,
        description := info.description,
        severity := sc.1,
        category := info.category,
        line_number := line_number,
        code_snippet := code_snippet,
        recommendation := info.recommendation,
        confidence := round2 sc.2,
        cwe_id := info.cwe_id,
        swc_id := info.swc_id }

/-- The inner loop of analyze_contract_patterns over the matches of one
rule, threading the vulnerability list and the shared counter. -/
def process_matches (info : RuleInfo) (source_code contract_name : Str) :
    List (Nat × Nat) → List Vulnerability → Nat → List Vulnerability × Nat
  | [], vulns, vuln_id => (vulns, vuln_id)
  | m :: rest, vulns, vuln_id =>
    match match_step info source_code contract_name m vuln_id with
    | none => process_matches info source_code contract_name rest vulns vuln_id
    | some v => process_matches info source_code contract_name rest (vulns ++ [v]) (vuln_id + 1)

/-- The outer loop of analyze_contract_patterns over the rule catalog. -/
def process_rules (source_code contract_name : Str) :
    List RuleInfo → List Vulnerability → Nat → List Vulnerability × Nat
  | [], vulns, vuln_id => (vulns, vuln_id)
  | info :: rest, vulns, vuln_id =>
    let st := process_matches info source_code contract_name (info.pattern source_code) vulns vuln_id
    process_rules source_code contract_name rest st.1 st.2

/-- analyze_contract_patterns (app.py lines 338-399), parametrised by the
rule catalog (the source iterates the global VULNERABILITY_PATTERNS). -/
def analyze_contract_patterns (catalog : List RuleInfo)
    (source_code contract_name : Str) : List Vulnerability :=
  (process_rules source_code contract_name catalog [] 1).1

/-- The severity_weights table of calculate_risk_score (app.py lines
407-413), as the insertion-ordered mapping the source builds. -/
def severity_weights : List (Str × ℚ) :=
  [(str "CRITICAL", 10), (str "HIGH", 7), (str "MEDIUM", 4), (str "LOW", 2), (str "INFO", 1/2)]

/-- The total_weight accumulation of app.py lines 415-418; the dict lookup
`severity_weights.get(severity, 1.0)` is the assoc-list lookup with
default 1. -/
def total_weight (vulnerabilities : List Vulnerability) : ℚ :=
  vulnerabilities.foldl
    (fun acc v => acc + ((severity_weights.lookup v.severity).getD 1) * v.confidence) 0

/-- calculate_risk_score (app.py lines 402-424). -/
def calculate_risk_score (vulnerabilities : List Vulnerability) : ℚ :=
  if vulnerabilities.isEmpty then 0
  else round2 (min (total_weight vulnerabilities * 5) 100)

/-- One step of the dict update `counts[value] = counts.get(value, 0) + 1`
on the insertion-ordered assoc-list model. -/
def bump : List (Str × Nat) → Str → List (Str × Nat)
  | [], k => [(k, 1)]
  | (k2, n) :: rest, k => if k2 = k then (k2, n + 1) :: rest else (k2, n) :: bump rest k

/-- count_by_field (app.py lines 427-433); the dynamic `getattr` is the
field projection passed as a function. -/
def count_by_field (vulnerabilities : List Vulnerability)
    (field : Vulnerability → Str) : List (Str × Nat) :=
  vulnerabilities.foldl (fun counts v => bump counts (field v)) []

/-- The AnalysisMetrics dataclass (app.py lines 44-50), counts as
insertion-ordered assoc lists. -/
structure AnalysisMetrics where
  overall_risk_score : ℚ
  total_vulnerabilities : Nat
  severity_count : List (Str × Nat)
  category_count : List (Str × Nat)
  model_confidence : ℚ
deriving DecidableEq

/-- The AnalysisResponse shape of the single-contract endpoint (app.py
lines 52-59 and 509-534); the failure path returns empty metrics, modelled
as `none`.  Wall-clock processing time is boundary state and is omitted. -/
structure AnalysisResponse where
  success : Bool
  message : Str
  contract_name : Str
  vulnerabilities : List Vulnerability
  metrics : Option AnalysisMetrics
deriving DecidableEq

/-- The computational body of the /api/ml/analyze endpoint (app.py lines
478-534): empty code is rejected, otherwise the scan runs and the metrics
are assembled. -/
def analyze_contract (catalog : List RuleInfo)
    (contract_code contract_name : Str) : AnalysisResponse :=
  if contract_code = [] then
    { success := false,
      message := str "Contract code is required",
      contract_name := contract_name,
      vulnerabilities := [],
      metrics := none }
  else
    let vulnerabilities := analyze_contract_patterns catalog contract_code contract_name
    let risk_score := calculate_risk_score vulnerabilities
    let severity_count := count_by_field vulnerabilities (fun v => v.severity)
    let category_count := count_by_field vulnerabilities (fun v => v.category)
    let avg_confidence : ℚ :=
      if vulnerabilities.isEmpty then 0
      else (vulnerabilities.map (fun v => v.confidence)).sum / (vulnerabilities.length : ℚ)
    { success := true,
      message := str "Analysis completed. Found "
        ++ Nat.toDigits 10 vulnerabilities.length ++ str " potential vulnerabilities.",
      contract_name := contract_name,
      vulnerabilities := vulnerabilities,
      metrics := some {
        overall_risk_score := risk_score,
        total_vulnerabilities := vulnerabilities.length,
        severity_count := severity_count,
        category_count := category_count,
        model_confidence := round2 avg_confidence } }

/-- One entry of the batch result mapping (app.py lines 581-607): a
successful scan with its vulnerabilities and metrics, or the per-entry
failure record. -/
inductive BatchEntry where
  | ok : List Vulnerability → ℚ → Nat → List (Str × Nat) → List (Str × Nat) → BatchEntry
  | failure : Str → BatchEntry
deriving DecidableEq

/-- The loop of the /api/ml/batch endpoint (app.py lines 572-607): the
request object is the insertion-ordered mapping contractName to
contractCode (`contract_data.get` with default empty string applied). -/
def batch_analyze (catalog : List RuleInfo) :
    List (Str × Str) → List (Str × BatchEntry)
  | [] => []
  | (contract_name, contract_code) :: rest =>
    let entry :=
      if contract_code ≠ [] then
        let vulnerabilities := analyze_contract_patterns catalog contract_code contract_name
        BatchEntry.ok vulnerabilities (calculate_risk_score vulnerabilities)
          vulnerabilities.length
          (count_by_field vulnerabilities (fun v => v.severity))
          (count_by_field vulnerabilities (fun v => v.category))
      else BatchEntry.failure (str "No contract code provided")
    (contract_name, entry) :: batch_analyze catalog rest

/-!
Spec-side definitions.  These two follow the words of the specification
(sections 4.3 and 4.6) rather than the source, and are compared with the
source-derived definitions in the theorems below.
-/

/-- Section 4.3 of the spec, rules 2-4: contextSatisfied is true by default
and false exactly when the check_before pattern hits in the last 500
characters preceding the match start or the check_after pattern hits in the
first 500 characters following the match end. -/
def spec_contextSatisfied (info : RuleInfo) (source_code : Str) (mstart mend : Nat) : Bool :=
  let beforeHit :=
    match info.check_before with
    | some cb => cb (last_chars 500 (source_code.take mstart))
    | none => false
  let afterHit :=
    match info.check_after with
    | some ca => ca ((source_code.drop mend).take 500)
    | none => false
  !(beforeHit || afterHit)

/-- Section 4.6 of the spec: the severity weight table CRITICAL=10.0,
HIGH=7.0, MEDIUM=4.0, LOW=2.0, INFO=0.5, any unknown severity 1.0. -/
def spec_severity_weight (s : Str) : ℚ :=
  if s = str "CRITICAL" then 10
  else if s = str "HIGH" then 7
  else if s = str "MEDIUM" then 4
  else if s = str "LOW" then 2
  else if s = str "INFO" then 1/2
  else 1

/-!
Concrete fixtures.  `litFinditer` and `litSearch` model `re.finditer` and
`re.search` for a literal (escaped) pattern: non-overlapping matches found
left to right.  The fixture rules instantiate the abstract matcher fields
with these, matching the behaviour of the corresponding catalog regexes on
the fixture sources.
-/

/-- Whether the literal pattern occurs at position `i` of `s`. -/
def occursAt (pat s : Str) (i : Nat) : Bool := decide ((s.drop i).take pat.length = pat)

/-- Fuelled scan for non-overlapping literal occurrences from position `i`. -/
def litFinditerAux (pat s : Str) : Nat → Nat → List (Nat × Nat)
  | _, 0 => []
  | i, fuel + 1 =>
    if i + pat.length ≤ s.length ∧ occursAt pat s i then
      (i, i + pat.length) :: litFinditerAux pat s (i + max pat.length 1) fuel
    else litFinditerAux pat s (i + 1) fuel

/-- All non-overlapping literal matches of `pat` in `s`, left to right,
as (start, end) spans; models `re.finditer` on an escaped literal. -/
def litFinditer (pat : Str) (s : Str) : List (Nat × Nat) :=
  litFinditerAux pat s 0 (s.length + 1)

/-- Whether `pat` occurs anywhere in `s`; models `re.search` on a literal. -/
def litSearch (pat : Str) (s : Str) : Bool := !(litFinditer pat s).isEmpty

/-- The tx_origin rule of the catalog (app.py lines 106-116): a literal
primary pattern, an informational context pattern, and no exclude or
check_before or check_after field. -/
def txOriginRule : RuleInfo := {
  key := str "tx_origin",
  pattern := litFinditer (str "tx.origin"),
  context := some (litSearch (str "require")),
  name := str "tx.origin Authentication",
  description := str "Using tx.origin for authentication is vulnerable to phishing attacks",
  severity := str "HIGH",
  category := str "ACCESS_CONTROL",
  cwe_id := some (str "CWE-287"),
  swc_id := some (str "SWC-115"),
  recommendation := str "Use msg.sender instead of tx.origin for authentication." }

/-- The selfdestruct rule of the catalog (app.py lines 119-129) restricted
to the fixture source below, on which its regexes coincide with these
literal matchers. -/
def selfdestructRule : RuleInfo := {
  key := str "selfdestruct",
  pattern := litFinditer (str "selfdestruct("),
  check_before := some (litSearch (str "onlyOwner")),
  name := str "Unprotected Selfdestruct",
  description := str "selfdestruct can be called without proper access control",
  severity := str "CRITICAL",
  category := str "ACCESS_CONTROL",
  cwe_id := some (str "CWE-284"),
  swc_id := some (str "SWC-106"),
  recommendation := str "Add proper access control (e.g. onlyOwner modifier) to selfdestruct functions." }

/-- A rule with an exclusion pattern, after the integer_overflow rule of the
catalog (app.py lines 80-90), on the fixture source below. -/
def overflowRule : RuleInfo := {
  key := str "integer_overflow",
  pattern := litFinditer (str "+"),
  exclude := some (litSearch (str "unchecked")),
  name := str "Integer Overflow/Underflow",
  description := str "Arithmetic operation without overflow protection",
  severity := str "HIGH",
  category := str "ARITHMETIC",
  cwe_id := some (str "CWE-190"),
  swc_id := some (str "SWC-101"),
  recommendation := str "Use Solidity 0.8+ with built-in overflow checks." }

/-- A MEDIUM-severity rule carrying a check_before mitigation pattern,
exercising the suppression branch of the scan engine. -/
def mitigatedMediumRule : RuleInfo := {
  key := str "timestamp",
  pattern := litFinditer (str "now"),
  check_before := some (litSearch (str "require(")),
  name := str "Timestamp Dependence",
  description := str "Block timestamp can be manipulated by miners",
  severity := str "MEDIUM",
  category := str "TIME_MANIPULATION",
  cwe_id := some (str "CWE-829"),
  swc_id := some (str "SWC-116"),
  recommendation := str "Do not use block.timestamp for critical logic." }

/-- The floating_pragma rule of the catalog (app.py lines 169-178) on the
batch fixture source, where its regex matches this literal once. -/
def floatingPragmaRule : RuleInfo := {
  key := str "floating_pragma",
  pattern := litFinditer (str "pragma solidity ^"),
  name := str "Floating Pragma",
  description := str "Contract uses floating pragma which may compile with different versions",
  severity := str "LOW",
  category := str "VERSION",
  cwe_id := some (str "CWE-1103"),
  swc_id := some (str "SWC-103"),
  recommendation := str "Lock pragma to specific version." }

/-- A fixture Vulnerability with the given severity and confidence. -/
def demoVuln (sev : Str) (c : ℚ) : Vulnerability := {
  id := str "demo",
  name := str "demo",
  description := str "demo",
  severity := sev,
  category := str "demo",
  line_number := 1,
  code_snippet := [],
  recommendation := str "demo",
  confidence := c }

/-- The batch fixture of spec section 8: contract A with a floating pragma,
contract B with empty code. -/
def demoEntries : List (Str × Str) :=
  [(str "A", str "pragma solidity ^0.8.0;"), (str "B", [])]

/-!
Helper lemmas about the per-match step and the match loop.
-/

/-- A rule with neither mitigation pattern always evaluates its context as
satisfied. -/
lemma context_ok_no_checks (info : RuleInfo) (source_code : Str) (mstart mend : Nat)
    (hcb : info.check_before = none) (hca : info.check_after = none) :
    context_ok info source_code mstart mend = true := by
  simp [context_ok, hcb, hca]

/-- A rule with no exclusion is never excluded. -/
lemma rule_excluded_none (info : RuleInfo) (source_code : Str)
    (hex : info.exclude = none) :
    rule_excluded info source_code = false := by
  simp [rule_excluded, hex]

/-- For a rule with no exclusion and neither mitigation pattern, every match
produces one Vulnerability carrying the declared severity and the
context-satisfied confidence. -/
lemma match_step_no_checks (info : RuleInfo) (source_code contract_name : Str)
    (m : Nat × Nat) (vuln_id : Nat)
    (hex : info.exclude = none) (hcb : info.check_before = none)
    (hca : info.check_after = none) :
    ∃ v : Vulnerability,
      match_step info source_code contract_name m vuln_id = some v ∧
      v.confidence = round2 (calculate_confidence true true) ∧
      v.severity = info.severity := by
  have hexc := rule_excluded_none info source_code hex
  have hctx := context_ok_no_checks info source_code m.1 m.2 hcb hca
  simp [match_step, hexc, hctx]

/-- The match loop of a rule with no exclusion and neither mitigation
pattern appends exactly one Vulnerability per match, each with the declared
severity and the context-satisfied confidence, and advances the counter by
the number of matches. -/
lemma process_matches_no_checks (info : RuleInfo) (source_code contract_name : Str)
    (hex : info.exclude = none) (hcb : info.check_before = none)
    (hca : info.check_after = none) :
    ∀ (ms : List (Nat × Nat)) (vulns : List Vulnerability) (vuln_id : Nat),
    ∃ new : List Vulnerability,
      process_matches info source_code contract_name ms vulns vuln_id
        = (vulns ++ new, vuln_id + new.length) ∧
      new.length = ms.length ∧
      ∀ v ∈ new, v.confidence = round2 (calculate_confidence true true) ∧
        v.severity = info.severity := by
  intro ms
  induction ms with
  | nil => intro vulns vuln_id; exact ⟨[], by simp [process_matches], rfl, by simp⟩
  | cons m rest ih =>
    intro vulns vuln_id
    obtain ⟨v, hv, hvc, hvs⟩ := match_step_no_checks info source_code contract_name m vuln_id hex hcb hca
    obtain ⟨new, h1, h2, h3⟩ := ih (vulns ++ [v]) (vuln_id + 1)
    refine ⟨v :: new, ?_, by simp [h2], ?_⟩
    · simp only [process_matches, hv, h1, Prod.mk.injEq]
      exact ⟨by simp, by simp only [List.length_cons]; omega⟩
    · intro w hw
      rcases List.mem_cons.mp hw with h | h
      · exact h ▸ ⟨hvc, hvs⟩
      · exact h3 w h

/-!
Claim C1.
-/

/-- C1 counterexample: the tx_origin rule defines neither check_before,
check_after nor exclusion; on the non-empty source consisting of one
tx.origin occurrence the scan yields exactly one Finding, but its
confidence is 0.95, not 0.90 — the formula min(0.7 + 0.2 + 0.5 x 0.1, 1.0)
evaluates to 0.95. -/
theorem C1_confidence_counterexample :
    (analyze_contract_patterns [txOriginRule] (str "tx.origin") (str "Demo")).map
        (fun v => v.confidence) = [19/20]
      ∧ ¬((19 : ℚ)/20 = 9/10) :=
  ⟨by decide, by decide⟩

/-- C1 (amended): for every rule that defines neither a check_before,
check_after, nor exclusion pattern, every match of the primary pattern in
valid (non-empty) input yields exactly one Finding whose confidence equals
0.95, computed per the formula min(0.7 match + 0.2 context + 0.5 x 0.1
quality, 1.0) rounded to 2 decimal places. -/
theorem C1_every_match_one_finding (info : RuleInfo) (source_code contract_name : Str)
    (hex : info.exclude = none) (hcb : info.check_before = none)
    (hca : info.check_after = none) (hsource : source_code ≠ [])
    (vulns : List Vulnerability) (vuln_id : Nat) :
    ∃ new : List Vulnerability,
      process_matches info source_code contract_name (info.pattern source_code) vulns vuln_id
        = (vulns ++ new, vuln_id + new.length) ∧
      new.length = (info.pattern source_code).length ∧
      (∀ v ∈ new, v.confidence = round2 (calculate_confidence true true)
        ∧ v.severity = info.severity) ∧
      round2 (calculate_confidence true true) = 19/20 := by
  obtain ⟨new, h1, h2, h3⟩ := process_matches_no_checks info source_code contract_name
    hex hcb hca (info.pattern source_code) vulns vuln_id
  exact ⟨new, h1, h2, h3, by decide⟩

/-- C1 witness: the amended statement instantiated at the tx_origin fixture
on a concrete source. -/
theorem C1_witness :
    ∃ new : List Vulnerability,
      process_matches txOriginRule (str "tx.origin") (str "Demo")
          (txOriginRule.pattern (str "tx.origin")) [] 1
        = ([] ++ new, 1 + new.length) ∧
      new.length = (txOriginRule.pattern (str "tx.origin")).length ∧
      (∀ v ∈ new, v.confidence = round2 (calculate_confidence true true)
        ∧ v.severity = txOriginRule.severity) ∧
      round2 (calculate_confidence true true) = 19/20 :=
  C1_every_match_one_finding txOriginRule (str "tx.origin") (str "Demo")
    rfl rfl rfl (by decide) [] 1

/-!
Claim C2.
-/

/-- When the exclusion pattern of a rule matches the full source, every
match of the rule is discarded and the loop state is unchanged. -/
lemma process_matches_excluded (info : RuleInfo) (source_code contract_name : Str)
    (hexc : rule_excluded info source_code = true) :
    ∀ (ms : List (Nat × Nat)) (vulns : List Vulnerability) (vuln_id : Nat),
      process_matches info source_code contract_name ms vulns vuln_id = (vulns, vuln_id) := by
  intro ms
  induction ms with
  | nil => intro vulns vuln_id; rfl
  | cons m rest ih =>
    intro vulns vuln_id
    have hstep : match_step info source_code contract_name m vuln_id = none := by
      simp [match_step, hexc]
    simp only [process_matches, hstep]
    exact ih vulns vuln_id

/-- C2: for every rule defining an exclusion pattern and every source text
on which it matches (the abstracted search predicate returns true, modelling
the case-insensitive whole-text search), the scan produces zero Findings for
that rule even when the primary pattern matches multiple times: the match
loop returns its state unchanged on any match list, and scanning such a rule
alone yields the empty Finding list. -/
theorem C2_exclusion_suppresses_rule (info : RuleInfo) (source_code contract_name : Str)
    (ex : Str → Bool) (hex : info.exclude = some ex) (hhit : ex source_code = true)
    (ms : List (Nat × Nat)) (vulns : List Vulnerability) (vuln_id : Nat) :
    process_matches info source_code contract_name ms vulns vuln_id = (vulns, vuln_id)
      ∧ analyze_contract_patterns [info] source_code contract_name = [] := by
  have hexc : rule_excluded info source_code = true := by simp [rule_excluded, hex, hhit]
  refine ⟨process_matches_excluded info source_code contract_name hexc ms vulns vuln_id, ?_⟩
  simp [analyze_contract_patterns, process_rules,
    process_matches_excluded info source_code contract_name hexc]

/-- C2 witness: the integer_overflow fixture on a source containing the
excluded word and two primary-pattern matches. -/
theorem C2_witness :
    process_matches overflowRule (str "unchecked { x + y + z }") (str "Demo")
        (overflowRule.pattern (str "unchecked { x + y + z }")) [] 1 = ([], 1)
      ∧ analyze_contract_patterns [overflowRule] (str "unchecked { x + y + z }") (str "Demo") = [] :=
  C2_exclusion_suppresses_rule overflowRule (str "unchecked { x + y + z }") (str "Demo")
    (litSearch (str "unchecked")) rfl (by decide)
    (overflowRule.pattern (str "unchecked { x + y + z }")) [] 1

/-!
Claim C3.
-/

/-- For a CRITICAL or HIGH rule that is not excluded and whose mitigation
check fails the context, the per-match step emits a Finding downgraded to
MEDIUM with the 0.8-penalised confidence. -/
lemma match_step_downgrade (info : RuleInfo) (source_code contract_name : Str)
    (m : Nat × Nat) (vuln_id : Nat)
    (hsev : info.severity = str "CRITICAL" ∨ info.severity = str "HIGH")
    (hexc : rule_excluded info source_code = false)
    (hctx : context_ok info source_code m.1 m.2 = false) :
    ∃ v : Vulnerability,
      match_step info source_code contract_name m vuln_id = some v ∧
      v.severity = str "MEDIUM" ∧
      v.confidence = round2 (calculate_confidence true false * (8/10)) := by
  rcases hsev with h | h <;> simp [match_step, hexc, hctx, h]

/-- C3 (amended): for every match of a rule of declared severity CRITICAL
or HIGH for which a check_before or check_after mitigation pattern is found
in range (contextSatisfied = false) and which is not excluded, the scan
still emits a Finding, with effective severity MEDIUM and with the computed
confidence multiplied by 0.8 before rounding — since context is not
satisfied the base confidence is 0.7 + 0.05 = 0.75, so the Finding carries
round(0.75 x 0.8, 2) = 0.60. -/
theorem C3_downgrade_medium_confidence (info : RuleInfo) (source_code contract_name : Str)
    (m : Nat × Nat)
    (hsev : info.severity = str "CRITICAL" ∨ info.severity = str "HIGH")
    (hexc : rule_excluded info source_code = false)
    (hctx : context_ok info source_code m.1 m.2 = false)
    (rest : List (Nat × Nat)) (vulns : List Vulnerability) (vuln_id : Nat) :
    ∃ v : Vulnerability,
      v.severity = str "MEDIUM" ∧ v.confidence = 3/5 ∧
      v.confidence = round2 (calculate_confidence true false * (8/10)) ∧
      process_matches info source_code contract_name (m :: rest) vulns vuln_id
        = process_matches info source_code contract_name rest (vulns ++ [v]) (vuln_id + 1) := by
  obtain ⟨v, hv, hs, hc⟩ := match_step_downgrade info source_code contract_name m vuln_id hsev hexc hctx
  refine ⟨v, hs, ?_, hc, ?_⟩
  · rw [hc]; decide
  · simp only [process_matches, hv]

/-- C3 counterexample: the selfdestruct fixture (CRITICAL, check_before)
with its mitigation present in range yields one MEDIUM Finding of
confidence 0.60, which is neither the 0.72 nor the 0.56 the claim
computes. -/
theorem C3_confidence_counterexample :
    (analyze_contract_patterns [selfdestructRule] (str "onlyOwner(); selfdestruct(") (str "Demo")).map
        (fun v => (v.severity, v.confidence)) = [(str "MEDIUM", 3/5)]
      ∧ ¬((3 : ℚ)/5 = 72/100) ∧ ¬((3 : ℚ)/5 = 56/100) :=
  ⟨by decide, by decide, by decide⟩

/-- C3 witness: the amended statement instantiated at the selfdestruct
fixture and its concrete match span. -/
theorem C3_witness :
    ∃ v : Vulnerability,
      v.severity = str "MEDIUM" ∧ v.confidence = 3/5 ∧
      v.confidence = round2 (calculate_confidence true false * (8/10)) ∧
      process_matches selfdestructRule (str "onlyOwner(); selfdestruct(") (str "Demo")
          ((13, 26) :: []) [] 1
        = process_matches selfdestructRule (str "onlyOwner(); selfdestruct(") (str "Demo")
          [] ([] ++ [v]) (1 + 1) :=
  C3_downgrade_medium_confidence selfdestructRule (str "onlyOwner(); selfdestruct(") (str "Demo")
    (13, 26) (Or.inl rfl) (by decide) (by decide) [] [] 1

/-!
Claim C4.
-/

/-- C4: for every match of a rule whose declared severity is neither
CRITICAL nor HIGH, when a mitigation pattern is found in range
(contextSatisfied = false) the match produces no Finding at all: the loop
state passes through unchanged. -/
theorem C4_mitigated_low_severity_suppressed (info : RuleInfo) (source_code contract_name : Str)
    (m : Nat × Nat)
    (hsev : info.severity ≠ str "CRITICAL" ∧ info.severity ≠ str "HIGH")
    (hctx : context_ok info source_code m.1 m.2 = false)
    (rest : List (Nat × Nat)) (vulns : List Vulnerability) (vuln_id : Nat) :
    process_matches info source_code contract_name (m :: rest) vulns vuln_id
      = process_matches info source_code contract_name rest vulns vuln_id := by
  have hstep : match_step info source_code contract_name m vuln_id = none := by
    by_cases hexc : rule_excluded info source_code
    · simp [match_step, hexc]
    · simp [match_step, hexc, hctx, hsev.1, hsev.2]
  simp only [process_matches, hstep]

/-- C4 witness: a MEDIUM rule with a check_before pattern, with the
mitigation present in the 500-character window before the match. -/
theorem C4_witness :
    process_matches mitigatedMediumRule (str "require(x); now") (str "Demo")
        ((12, 15) :: []) [] 1
      = process_matches mitigatedMediumRule (str "require(x); now") (str "Demo") [] [] 1 :=
  C4_mitigated_low_severity_suppressed mitigatedMediumRule (str "require(x); now") (str "Demo")
    (12, 15) (by decide) (by decide) [] [] 1

/-!
Claim C5.
-/

/-- C5: the context evaluation used by the scan engine coincides with the
specification: the before-check searches exactly the last 500 characters of
the source preceding the match start, the after-check exactly the first 500
characters following the match end (case-insensitivity being internal to
the abstracted search predicates), a hit by either makes contextSatisfied
false, and it defaults to true when neither check applies or neither
hits. -/
theorem C5_context_windows (info : RuleInfo) (source_code : Str) (mstart mend : Nat) :
    context_ok info source_code mstart mend
      = spec_contextSatisfied info source_code mstart mend := by
  unfold context_ok spec_contextSatisfied
  cases info.check_before with
  | none =>
    cases info.check_after with
    | none => rfl
    | some ca => cases h : ca ((source_code.drop mend).take 500) <;> simp [h]
  | some cb =>
    cases info.check_after with
    | none => cases h : cb (last_chars 500 (source_code.take mstart)) <;> simp [h]
    | some ca =>
      cases h1 : cb (last_chars 500 (source_code.take mstart)) <;>
        cases h2 : ca ((source_code.drop mend).take 500) <;> simp [h1, h2]

/-!
Claim C6.
-/

/-- The dict lookup with default 1.0 agrees with the severity weight table
of the spec. -/
lemma lookup_weight (s : Str) :
    ((severity_weights.lookup s).getD 1) = spec_severity_weight s := by
  by_cases h1 : s = str "CRITICAL"
  · subst h1; decide
  by_cases h2 : s = str "HIGH"
  · subst h2; decide
  by_cases h3 : s = str "MEDIUM"
  · subst h3; decide
  by_cases h4 : s = str "LOW"
  · subst h4; decide
  by_cases h5 : s = str "INFO"
  · subst h5; decide
  · have b1 : (s == str "CRITICAL") = false := beq_eq_false_iff_ne.mpr h1
    have b2 : (s == str "HIGH") = false := beq_eq_false_iff_ne.mpr h2
    have b3 : (s == str "MEDIUM") = false := beq_eq_false_iff_ne.mpr h3
    have b4 : (s == str "LOW") = false := beq_eq_false_iff_ne.mpr h4
    have b5 : (s == str "INFO") = false := beq_eq_false_iff_ne.mpr h5
    simp [severity_weights, spec_severity_weight, List.lookup,
      b1, b2, b3, b4, b5, h1, h2, h3, h4, h5]

/-- A left fold accumulating additions is the starting value plus the sum of
the mapped list. -/
lemma foldl_add_map_sum (g : Vulnerability → ℚ) :
    ∀ (l : List Vulnerability) (a : ℚ),
      l.foldl (fun acc v => acc + g v) a = a + (l.map g).sum := by
  intro l
  induction l with
  | nil => intro a; simp
  | cons v rest ih => intro a; simp [ih, add_assoc]

/-- The accumulated total weight is the sum of weight x confidence with the
weights of the spec table. -/
lemma total_weight_eq (l : List Vulnerability) :
    total_weight l
      = (l.map (fun v => spec_severity_weight v.severity * v.confidence)).sum := by
  unfold total_weight
  rw [foldl_add_map_sum (fun v => ((severity_weights.lookup v.severity).getD 1) * v.confidence) l 0]
  simp [lookup_weight]

/-- C6: calculate_risk_score computes totalWeight as the sum over findings
of weight(severity) x confidence, with weights CRITICAL=10, HIGH=7,
MEDIUM=4, LOW=2, INFO=0.5 and 1 for any unknown severity, and returns
min(totalWeight x 5, 100) rounded to 2 decimals; the empty list yields
0.0. -/
theorem C6_risk_score_formula (vulnerabilities : List Vulnerability) :
    calculate_risk_score vulnerabilities
      = round2 (min
          (((vulnerabilities.map (fun v => spec_severity_weight v.severity * v.confidence)).sum) * 5)
          100)
    ∧ calculate_risk_score [] = 0 := by
  constructor
  · unfold calculate_risk_score
    by_cases h : vulnerabilities.isEmpty
    · have hnil : vulnerabilities = [] := List.isEmpty_iff.mp h
      rw [if_pos h, hnil]
      decide
    · rw [if_neg h, total_weight_eq]
  · rfl

/-!
Claim C7.
-/

/-- ratFloor is the mathematical floor. -/
lemma ratFloor_eq_floor (q : ℚ) : ratFloor q = ⌊q⌋ := by
  rw [ratFloor, Int.fdiv_eq_ediv _ (by exact_mod_cast Nat.zero_le q.den), Rat.floor_def]

/-- round2 as a floor expression over ℚ. -/
lemma round2_eq (q : ℚ) : round2 q = ((⌊q * 100 + 1/2⌋ : ℤ) : ℚ) / 100 := by
  rw [round2, ratFloor_eq_floor, Rat.divInt_eq_div]
  norm_num

/-- round2 is monotone. -/
lemma round2_mono {a b : ℚ} (h : a ≤ b) : round2 a ≤ round2 b := by
  rw [round2_eq, round2_eq]
  have hfl : ⌊a * 100 + 1/2⌋ ≤ ⌊b * 100 + 1/2⌋ := Int.floor_mono (by linarith)
  have hc : ((⌊a * 100 + 1/2⌋ : ℤ) : ℚ) ≤ ((⌊b * 100 + 1/2⌋ : ℤ) : ℚ) := by exact_mod_cast hfl
  gcongr

/-- Every severity weight of the spec table is positive. -/
lemma spec_weight_pos (s : Str) : 0 < spec_severity_weight s := by
  unfold spec_severity_weight
  split_ifs <;> norm_num

/-- With nonnegative confidences the accumulated weight is nonnegative. -/
lemma total_weight_nonneg (l : List Vulnerability)
    (hl : ∀ v ∈ l, 0 ≤ v.confidence) : 0 ≤ total_weight l := by
  rw [total_weight_eq]
  apply List.sum_nonneg
  intro x hx
  simp only [List.mem_map] at hx
  obtain ⟨v, hv, rfl⟩ := hx
  exact mul_nonneg (spec_weight_pos v.severity).le (hl v hv)

/-- C7: appending one Finding of nonnegative confidence (the data model
bounds confidence in [0, 1]) never decreases the risk score, and for every
finding list of nonnegative confidences the risk score lies in [0, 100]. -/
theorem C7_risk_monotone_bounded (l : List Vulnerability) (f : Vulnerability)
    (hl : ∀ v ∈ l, 0 ≤ v.confidence) (hf : 0 ≤ f.confidence) :
    calculate_risk_score l ≤ calculate_risk_score (l ++ [f])
      ∧ 0 ≤ calculate_risk_score l ∧ calculate_risk_score l ≤ 100 := by
  have hrn : ∀ (l2 : List Vulnerability), (∀ v ∈ l2, 0 ≤ v.confidence) →
      0 ≤ calculate_risk_score l2 := by
    intro l2 hl2
    unfold calculate_risk_score
    split
    · norm_num
    · have h0 : (0 : ℚ) ≤ min (total_weight l2 * 5) 100 :=
        le_min (mul_nonneg (total_weight_nonneg l2 hl2) (by norm_num)) (by norm_num)
      calc (0 : ℚ) = round2 0 := by decide
      _ ≤ _ := round2_mono h0
  have hle : calculate_risk_score l ≤ 100 := by
    unfold calculate_risk_score
    split
    · norm_num
    · calc round2 (min (total_weight l * 5) 100) ≤ round2 100 := round2_mono (min_le_right _ _)
      _ = 100 := by decide
  refine ⟨?_, hrn l hl, hle⟩
  by_cases hl0 : l = []
  · subst hl0
    have : calculate_risk_score ([] : List Vulnerability) = 0 := rfl
    rw [this]
    refine hrn [f] ?_
    intro v hv
    rw [List.mem_singleton.mp hv]
    exact hf
  · have h1 : l.isEmpty = false := by simpa [List.isEmpty_iff] using hl0
    have h2 : (l ++ [f]).isEmpty = false := by simp [List.isEmpty_iff]
    unfold calculate_risk_score
    rw [h1, h2]
    simp only [Bool.false_eq_true, if_false]
    apply round2_mono
    apply min_le_min _ le_rfl
    have hT : total_weight l ≤ total_weight (l ++ [f]) := by
      rw [total_weight_eq, total_weight_eq, List.map_append, List.sum_append]
      have : (0 : ℚ) ≤ spec_severity_weight f.severity * f.confidence :=
        mul_nonneg (spec_weight_pos f.severity).le hf
      simp only [List.map_cons, List.map_nil, List.sum_cons, List.sum_nil]
      linarith
    exact mul_le_mul_of_nonneg_right hT (by norm_num)

/-- C7 witness: a concrete one-element list extended by one Finding. -/
theorem C7_witness :
    calculate_risk_score [demoVuln (str "HIGH") (19/20)]
        ≤ calculate_risk_score ([demoVuln (str "HIGH") (19/20)] ++ [demoVuln (str "LOW") (1/2)])
      ∧ 0 ≤ calculate_risk_score [demoVuln (str "HIGH") (19/20)]
      ∧ calculate_risk_score [demoVuln (str "HIGH") (19/20)] ≤ 100 :=
  C7_risk_monotone_bounded [demoVuln (str "HIGH") (19/20)] (demoVuln (str "LOW") (1/2))
    (by decide) (by decide)

/-!
Claim C8.
-/

/-- C8: batch analysis reports entries positionally: an entry with empty
contractCode is reported as the per-entry failure with the message No
contract code provided, every other entry of the same batch is still
scanned and reported normally, and the result has exactly one entry per
input entry — one failing entry does not abort the batch. -/
theorem C8_batch_per_entry (catalog : List RuleInfo) (entries : List (Str × Str)) :
    (batch_analyze catalog entries).length = entries.length
      ∧ ∀ (i : Nat) (contract_name contract_code : Str),
          entries[i]? = some (contract_name, contract_code) →
          (batch_analyze catalog entries)[i]? = some (contract_name,
            if contract_code ≠ [] then
              BatchEntry.ok (analyze_contract_patterns catalog contract_code contract_name)
                (calculate_risk_score (analyze_contract_patterns catalog contract_code contract_name))
                (analyze_contract_patterns catalog contract_code contract_name).length
                (count_by_field (analyze_contract_patterns catalog contract_code contract_name)
                  (fun v => v.severity))
                (count_by_field (analyze_contract_patterns catalog contract_code contract_name)
                  (fun v => v.category))
            else BatchEntry.failure (str "No contract code provided")) := by
  induction entries with
  | nil =>
    refine ⟨rfl, ?_⟩
    intro i contract_name contract_code h
    simp at h
  | cons e rest ih =>
    obtain ⟨name0, code0⟩ := e
    refine ⟨by simp only [batch_analyze, List.length_cons, ih.1], ?_⟩
    intro i contract_name contract_code h
    cases i with
    | zero =>
      simp only [List.getElem?_cons_zero, Option.some_inj, Prod.mk.injEq] at h
      obtain ⟨rfl, rfl⟩ := h
      simp only [batch_analyze, List.getElem?_cons_zero]
    | succ j =>
      simp only [List.getElem?_cons_succ] at h
      simpa [batch_analyze] using ih.2 j contract_name contract_code h

/-- C8 witness: the batch of spec section 8 under the floating_pragma rule:
entry B has empty code and is reported as the failure record, while the
batch keeps both entries. -/
theorem C8_witness :
    (batch_analyze [floatingPragmaRule] demoEntries).length = demoEntries.length
      ∧ (batch_analyze [floatingPragmaRule] demoEntries)[1]?
          = some (str "B", BatchEntry.failure (str "No contract code provided")) := by
  have h := C8_batch_per_entry [floatingPragmaRule] demoEntries
  refine ⟨h.1, ?_⟩
  have h2 := h.2 1 (str "B") [] (by decide)
  simpa using h2

/-!
Claim C9.
-/

/-- C9 counterexample: for the empty source text at line number 1 — the
line number get_line_number produces for any position in empty input — the
extractor renders the one empty line the split yields, so the snippet is
not empty. -/
theorem C9_empty_source_counterexample :
    extract_code_snippet [] 1 = str ">>> 1: " ∧ str ">>> 1: " ≠ ([] : Str) :=
  ⟨by decide, by decide⟩

/-- C9 (amended): the snippet extractor is total and clipping-bounded; for
the empty source it treats the source as one empty line: any line number up
to 3 renders that single line (the marked line when the line number is 1),
the snippet is empty exactly from line number 4 on (contextLines 2), and
for every source the selected window holds at most 2 x contextLines + 1
lines and never more lines than the split source has. -/
theorem C9_snippet_empty_source :
    (∀ line_number : Nat, line_number ≤ 3 →
        extract_code_snippet [] line_number = render_line line_number 1 [])
      ∧ (∀ line_number : Nat, 4 ≤ line_number → extract_code_snippet [] line_number = [])
      ∧ (∀ (lines : List Str) (line_number context_lines : Nat),
          (snippet_window lines line_number context_lines).length ≤ 2 * context_lines + 1
            ∧ (snippet_window lines line_number context_lines).length ≤ lines.length) := by
  refine ⟨?_, ?_, ?_⟩
  · intro ln h
    interval_cases ln <;> decide
  · intro ln h
    have hs : splitLines [] = [[]] := rfl
    have hw : snippet_window (splitLines []) ln 2 = [] := by
      rw [hs]
      simp only [snippet_window]
      rw [List.drop_eq_nil_of_le (by simpa using (show 1 ≤ ln - 2 - 1 by omega))]
      exact List.take_nil
    simp only [extract_code_snippet, hw]
    rfl
  · intro lines ln c
    constructor <;> simp only [snippet_window, List.length_take, List.length_drop] <;> omega

/-- C9 witness: the amended statement instantiated at the empty source with
line numbers 1 and 5. -/
theorem C9_witness :
    extract_code_snippet [] 1 = render_line 1 1 [] ∧ extract_code_snippet [] 5 = [] :=
  ⟨C9_snippet_empty_source.1 1 (by decide), C9_snippet_empty_source.2.1 5 (by decide)⟩

/-!
Claim C10.
-/

/-- One dict-count update adds one to the sum of the counts. -/
lemma bump_snd_sum (counts : List (Str × Nat)) (k : Str) :
    ((bump counts k).map Prod.snd).sum = ((counts.map Prod.snd).sum) + 1 := by
  induction counts with
  | nil => rfl
  | cons p rest ih =>
    obtain ⟨k2, n⟩ := p
    by_cases h : k2 = k
    · simp [bump, h]
      omega
    · simp [bump, h, ih]
      omega

/-- Folding dict-count updates over a list adds its length to the sum. -/
lemma count_fold_sum (f : Vulnerability → Str) :
    ∀ (l : List Vulnerability) (acc : List (Str × Nat)),
      ((l.foldl (fun counts v => bump counts (f v)) acc).map Prod.snd).sum
        = ((acc.map Prod.snd).sum) + l.length := by
  intro l
  induction l with
  | nil => intro acc; simp
  | cons v rest ih =>
    intro acc
    simp only [List.foldl_cons, List.length_cons]
    rw [ih (bump acc (f v)), bump_snd_sum]
    omega

/-- The counts of count_by_field sum to the number of findings counted. -/
lemma count_by_field_sum (l : List Vulnerability) (f : Vulnerability → Str) :
    ((count_by_field l f).map Prod.snd).sum = l.length := by
  unfold count_by_field
  rw [count_fold_sum f l []]
  simp

/-- C10: in the metrics of a scan result the per-severity counts and the
per-category counts each sum to the total number of Findings: every Finding
is tallied in exactly one severity bucket and one category bucket. -/
theorem C10_counts_sum_to_total (catalog : List RuleInfo) (contract_code contract_name : Str)
    (M : AnalysisMetrics)
    (h : (analyze_contract catalog contract_code contract_name).metrics = some M) :
    ((M.severity_count.map Prod.snd).sum = M.total_vulnerabilities)
      ∧ ((M.category_count.map Prod.snd).sum = M.total_vulnerabilities)
      ∧ M.total_vulnerabilities
          = (analyze_contract catalog contract_code contract_name).vulnerabilities.length := by
  unfold analyze_contract at h ⊢
  by_cases hc : contract_code = []
  · simp [hc] at h
  · simp only [if_neg hc] at h ⊢
    rw [Option.some_inj] at h
    subst h
    exact ⟨count_by_field_sum _ _, count_by_field_sum _ _, rfl⟩

/-- The concrete metrics the scan of the tx_origin fixture produces. -/
def demoMetrics : AnalysisMetrics :=
  ((analyze_contract [txOriginRule] (str "tx.origin") (str "Demo2")).metrics).getD
    { overall_risk_score := 0, total_vulnerabilities := 0,
      severity_count := [], category_count := [], model_confidence := 0 }

/-- C10 witness: the sums at the concrete scan of the tx_origin fixture. -/
theorem C10_witness :
    ((demoMetrics.severity_count.map Prod.snd).sum = demoMetrics.total_vulnerabilities)
      ∧ ((demoMetrics.category_count.map Prod.snd).sum = demoMetrics.total_vulnerabilities)
      ∧ demoMetrics.total_vulnerabilities
          = (analyze_contract [txOriginRule] (str "tx.origin") (str "Demo2")).vulnerabilities.length :=
  C10_counts_sum_to_total [txOriginRule] (str "tx.origin") (str "Demo2") demoMetrics (by decide)
